import Mathlib

/-!
Verification development for the ShootyEngine path tracer core.

Shallow embedding of the C++ sources:
  Source/Core/Shading/IntegratorContexts.cpp
  Source/Core/SceneLib/ModelResource.cpp
  Source/Core/BuildCommon/BakeScene.cpp
  Source/Core/BuildCore/BuildContext.cpp

Machine floats are modelled by `Flt`: either a finite rational value or a
non-finite value (NaN or an infinity).  Arithmetic propagates non-finite
operands, matching IEEE-754 on the points the theorems below rely on
(any operation with a NaN/Inf operand yields a non-finite result, and
`x != 0.0f` is true for every non-finite `x`).  Machine integers
(`uint32`) stay far below their wrap point in all modelled code paths and
are embedded as `Nat`.
-/

namespace ShootyEngine

/-- Model of a C++ `float`: a finite rational or a non-finite value. -/
inductive Flt where
  | fin : ℚ → Flt
  | nonfinite : Flt
deriving DecidableEq, Repr

/-- Addition on modelled floats: non-finite operands propagate. -/
def Flt.add : Flt → Flt → Flt
  | Flt.fin a, Flt.fin b => Flt.fin (a + b)
  | _, _ => Flt.nonfinite

/-- Multiplication on modelled floats: non-finite operands propagate
(IEEE: `0 * inf` and anything with NaN are non-finite). -/
def Flt.mul : Flt → Flt → Flt
  | Flt.fin a, Flt.fin b => Flt.fin (a * b)
  | _, _ => Flt.nonfinite

instance : Add Flt := ⟨Flt.add⟩

instance : Mul Flt := ⟨Flt.mul⟩

/-- Is the modelled float a finite value? -/
def Flt.isFinite : Flt → Bool
  | Flt.fin _ => true
  | Flt.nonfinite => false

/-- Model of the C++ comparison `x != 0`: true for every non-finite value
(IEEE: `NaN != 0.0f` and `inf != 0.0f` both hold). -/
def Flt.neZero : Flt → Bool
  | Flt.fin a => decide (a ≠ 0)
  | Flt.nonfinite => true

/-- Model of the C++ `float3` vector. -/
structure Flt3 where
  x : Flt
  y : Flt
  z : Flt
deriving DecidableEq, Repr

/-- Componentwise `float3` addition (MathLib `operator+`). -/
def Flt3.add (a b : Flt3) : Flt3 :=
  ⟨a.x + b.x, a.y + b.y, a.z + b.z⟩

/-- Componentwise `float3` multiplication (MathLib `operator*`),
as used for throughput and reflectance products. -/
def Flt3.mul (a b : Flt3) : Flt3 :=
  ⟨a.x * b.x, a.y * b.y, a.z * b.z⟩

instance : Add Flt3 := ⟨Flt3.add⟩

instance : Mul Flt3 := ⟨Flt3.mul⟩

/-- Scalar times vector. -/
def Flt3.smul (t : Flt) (a : Flt3) : Flt3 :=
  ⟨t * a.x, t * a.y, t * a.z⟩

/-- A `float3` with all components finite. -/
def Flt3.isFinite (a : Flt3) : Bool :=
  a.x.isFinite && a.y.isFinite && a.z.isFinite

/-- Build a finite `float3` from three rationals. -/
def flt3 (a b c : ℚ) : Flt3 :=
  ⟨Flt.fin a, Flt.fin b, Flt.fin c⟩

/-!
## Shading data model (Shading/IntegratorContexts.h, SurfaceParameters.h)

The headers are not under src/; the structures below carry the fields the
implementation file IntegratorContexts.cpp reads and writes, following the
spec's data-model section for field inventory.
-/

/-- Material flag bits (spec data model: `{AlphaTested, DisplacementEnabled,
PreserveRayDifferentials, ThinSurface}`); the enum header is not under src/. -/
structure MaterialFlags where
  alphaTested : Bool
  displacementEnabled : Bool
  preserveRayDifferentials : Bool
  thinSurface : Bool
deriving DecidableEq, Repr

instance : Inhabited MaterialFlags := ⟨⟨false, false, false, false⟩⟩

/-- Surface differential data `{dndu, dndv, duvdx, duvdy}` (spec data model);
the theorems below never inspect the components. -/
structure SurfaceDifferentials where
  dndu : Flt3
  dndv : Flt3
  duvdx : Flt3
  duvdy : Flt3
deriving DecidableEq, Repr

/-- Differential payload carried by a ray.  `MakeReflectionRay` and
`MakeRefractionRay` are not under src/; Modelled from the spec: reflected and
refracted rays receive analytically transformed differentials computed from
the listed inputs, so the payload records the constructor used and its
inputs. -/
inductive RayDifferentialData where
  | noDiff : RayDifferentialData
  | reflection (rxDirection ryDirection normal viewDirection wi : Flt3)
      (diffs : SurfaceDifferentials) : RayDifferentialData
  | refraction (rxDirection ryDirection normal viewDirection wi : Flt3)
      (diffs : SurfaceDifferentials) (relativeIor : Flt) : RayDifferentialData
deriving DecidableEq, Repr

/-- Spec data model: a ray carries origin, direction, optional differentials,
throughput, pixel index and bounce count. -/
structure Ray where
  origin : Flt3
  direction : Flt3
  throughput : Flt3
  pixelIndex : Nat
  bounceCount : Nat
  differentialData : RayDifferentialData
deriving DecidableEq, Repr

/-- Spec data model for `HitParameters`: the fields IntegratorContexts.cpp
reads. -/
structure HitParameters where
  throughput : Flt3
  viewDirection : Flt3
  pixelIndex : Nat
  bounceCount : Nat
deriving DecidableEq, Repr

/-- Spec data model for `SurfaceParameters`: the fields
IntegratorContexts.cpp reads. -/
structure SurfaceParameters where
  position : Flt3
  geometricNormal : Flt3
  perturbedNormal : Flt3
  rxDirection : Flt3
  ryDirection : Flt3
  materialFlags : MaterialFlags
  differentials : SurfaceDifferentials
deriving DecidableEq, Repr

/-- Modelled from the spec: `OffsetRayOrigin` (SurfaceParameters.cpp is not
under src/) displaces the hit position along the normal to avoid
self-intersection; the theorems below never inspect the result. -/
def OffsetRayOrigin (surface : SurfaceParameters) (_wi : Flt3) (s : Flt) : Flt3 :=
  surface.position + Flt3.smul s surface.geometricNormal

/-- Modelled from the spec: `MakeRay` (not under src/) builds a ray without
differentials from the passed origin, direction, throughput, pixel index and
bounce count. -/
def MakeRay (origin direction throughput : Flt3) (pixelIndex bounceCount : Nat) : Ray :=
  ⟨origin, direction, throughput, pixelIndex, bounceCount, RayDifferentialData.noDiff⟩

/-- Modelled from the spec: `MakeReflectionRay` (not under src/) builds a ray
carrying analytically transformed reflection differentials computed from its
inputs, and stores the passed throughput, pixel index and bounce count. -/
def MakeReflectionRay (rxDirection ryDirection origin normal viewDirection wi : Flt3)
    (diffs : SurfaceDifferentials) (throughput : Flt3) (pixelIndex bounceCount : Nat) : Ray :=
  ⟨origin, wi, throughput, pixelIndex, bounceCount,
    RayDifferentialData.reflection rxDirection ryDirection normal viewDirection wi diffs⟩

/-- Modelled from the spec: `MakeRefractionRay` (not under src/) builds a ray
carrying analytically transformed refraction differentials computed from its
inputs, and stores the passed throughput, pixel index and bounce count. -/
def MakeRefractionRay (rxDirection ryDirection origin normal viewDirection wi : Flt3)
    (diffs : SurfaceDifferentials) (relativeIor : Flt) (throughput : Flt3)
    (pixelIndex bounceCount : Nat) : Ray :=
  ⟨origin, wi, throughput, pixelIndex, bounceCount,
    RayDifferentialData.refraction rxDirection ryDirection normal viewDirection wi diffs relativeIor⟩

/-- IntegratorContexts.cpp `CreateReflectionBounceRay`. -/
def CreateReflectionBounceRay (surface : SurfaceParameters) (hit : HitParameters)
    (wi reflectance : Flt3) : Ray :=
  let offsetOrigin := OffsetRayOrigin surface wi (Flt.fin 1)
  let throughput := hit.throughput * reflectance
  let rayHasDifferentials := surface.rxDirection.x.neZero || surface.rxDirection.y.neZero
  if surface.materialFlags.preserveRayDifferentials && rayHasDifferentials then
    MakeReflectionRay surface.rxDirection surface.ryDirection offsetOrigin
      surface.perturbedNormal hit.viewDirection wi surface.differentials throughput
      hit.pixelIndex (hit.bounceCount + 1)
  else
    MakeRay offsetOrigin wi throughput hit.pixelIndex (hit.bounceCount + 1)

/-- IntegratorContexts.cpp `CreateRefractionBounceRay`. -/
def CreateRefractionBounceRay (surface : SurfaceParameters) (hit : HitParameters)
    (wi reflectance : Flt3) (relativeIor : Flt) : Ray :=
  let offsetOrigin := OffsetRayOrigin surface wi (Flt.fin 1)
  let throughput := hit.throughput * reflectance
  let rayHasDifferentials := surface.rxDirection.x.neZero || surface.rxDirection.y.neZero
  if surface.materialFlags.preserveRayDifferentials && rayHasDifferentials then
    MakeRefractionRay surface.rxDirection surface.ryDirection offsetOrigin
      surface.perturbedNormal hit.viewDirection wi surface.differentials relativeIor throughput
      hit.pixelIndex (hit.bounceCount + 1)
  else
    MakeRay offsetOrigin wi throughput hit.pixelIndex (hit.bounceCount + 1)

/-- Spec data model for `KernelContext`: the fields IntegratorContexts.cpp
reads and writes.  `imageData` is the pixel accumulator, `rayStack` the
bounded-depth ray stack. -/
structure KernelContext where
  imageData : List Flt3
  rayStack : List Ray
  rayStackCount : Nat
  rayStackCapacity : Nat
  maxPathLength : Nat
deriving DecidableEq, Repr

/-- The condition of the `Assert_` inside `InsertRay`:
`context->rayStackCount + 1 != context->rayStackCapacity`. -/
def insertRayAssertCondition (context : KernelContext) : Bool :=
  context.rayStackCount + 1 != context.rayStackCapacity

/-- IntegratorContexts.cpp `InsertRay`: early-out at the path-length bound,
then store at index `rayStackCount` and increment the count.  (`Assert_` is a
diagnostic check, modelled separately as `insertRayAssertCondition`; the
store itself is unconditional.) -/
def InsertRay (context : KernelContext) (ray : Ray) : KernelContext :=
  if ray.bounceCount = context.maxPathLength then
    context
  else
    { context with
        rayStack := context.rayStack.set context.rayStackCount ray,
        rayStackCount := context.rayStackCount + 1 }

/-- IntegratorContexts.cpp `AccumulatePixelEnergy` (Ray overload):
`imageData[ray.pixelIndex] += ray.throughput * value`. -/
def AccumulatePixelEnergyRay (context : KernelContext) (ray : Ray) (value : Flt3) :
    KernelContext :=
  { context with
      imageData := context.imageData.set ray.pixelIndex
        ((context.imageData.getD ray.pixelIndex (flt3 0 0 0)) + ray.throughput * value) }

/-- IntegratorContexts.cpp `AccumulatePixelEnergy` (HitParameters overload):
`imageData[hit.pixelIndex] += hit.throughput * value`. -/
def AccumulatePixelEnergyHit (context : KernelContext) (hit : HitParameters) (value : Flt3) :
    KernelContext :=
  { context with
      imageData := context.imageData.set hit.pixelIndex
        ((context.imageData.getD hit.pixelIndex (flt3 0 0 0)) + hit.throughput * value) }

/-!
## Scene / model resource (SceneLib/ModelResource.cpp)
-/

/-- Shader tag variant (spec data model:
`{DisneySolid, DisneyThin, TransparentGGX}`). -/
inductive ShaderType where
  | eDisneySolid : ShaderType
  | eDisneyThin : ShaderType
  | eTransparentGgx : ShaderType
deriving DecidableEq, Repr

/-- Spec data model for `Material`: the fields ModelResource.cpp reads and
writes.  `scalarIor` models `scalarAttributeValues[eIor]`. -/
structure Material where
  baseColor : Flt3
  shader : ShaderType
  scalarIor : Flt
  flags : MaterialFlags
deriving DecidableEq, Repr

/-- ModelResource.cpp `CreateDefaultMaterial`: gray 0.6 base color, Disney
solid shader, ior 1.5; the remaining fields keep their zero-initialized
defaults. -/
def CreateDefaultMaterial : Material :=
  { baseColor := flt3 (6/10) (6/10) (6/10),
    shader := ShaderType.eDisneySolid,
    scalarIor := Flt.fin (3/2),
    flags := ⟨false, false, false, false⟩ }

/-- Modelled from the spec: `BinarySearch` (UtilityLib/BinarySearch.h is not
under src/) performs binary search over a hash-sorted array, returning the
index of a matching element or `(uint)-1` (here `none`) when absent.
`bsearchGo xs key lo hi` searches the index interval `[lo, hi)`. -/
def bsearchGo (xs : List Nat) (key lo hi : Nat) : Option Nat :=
  if h : lo < hi then
    if xs.getD ((lo + hi) / 2) 0 = key then some ((lo + hi) / 2)
    else if xs.getD ((lo + hi) / 2) 0 < key then bsearchGo xs key ((lo + hi) / 2 + 1) hi
    else bsearchGo xs key lo ((lo + hi) / 2)
  else none
termination_by hi - lo
decreasing_by
  · omega
  · omega

/-- Modelled from the spec: entry point of the binary search over the whole
array. -/
def BinarySearch (xs : List Nat) (key : Nat) : Option Nat :=
  bsearchGo xs key 0 xs.length

/-- ModelResource.cpp `MeshMetaData` (fields per the `Serialize` overload). -/
structure MeshMetaData where
  indexCount : Nat
  indexOffset : Nat
  vertexCount : Nat
  vertexOffset : Nat
  materialHash : Nat
  indicesPerFace : Nat
  meshNameHash : Nat
deriving DecidableEq, Repr

/-- The parts of `ModelResource` (with its attached `ModelResourceData`)
that ModelResource.cpp's material lookup and mesh registration read:
parallel hash-sorted `materialHashes` and `materials` arrays, the mesh
metadata, and the default material installed by `InitializeModelResource`. -/
structure ModelResource where
  materialHashes : List Nat
  materials : List Material
  meshes : List MeshMetaData
  defaultMaterial : Material
deriving DecidableEq, Repr

/-- ModelResource.cpp `FindMeshMaterial`: empty material array or a failed
binary search yields the default material, otherwise the material at the
found index. -/
def FindMeshMaterial (model : ModelResource) (materialHash : Nat) : Material :=
  let materialCount := model.materials.length
  if materialCount = 0 then model.defaultMaterial
  else
    match BinarySearch (model.materialHashes.take materialCount) materialHash with
    | none => model.defaultMaterial
    | some materialIndex => model.materials.getD materialIndex CreateDefaultMaterial

/-- ModelResource.cpp: `#define EnableDisplacement_ 0` — the build-time
displacement gate of this build. -/
def EnableDisplacement : Bool := false

/-- ModelResource.cpp: `#define TessellationRate_ 64.0f`. -/
def TessellationRate : ℚ := 64

/-- Outcome of registering one mesh with the traversal backend, as decided
inside `InitializeMeshes`: a subdivision geometry carrying the tessellation
rate and a displacement callback, or an indexed triangle / quad geometry. -/
inductive GeometryRegistration where
  | subdivision (tessellationRate : ℚ) (hasDisplacementFunction : Bool) : GeometryRegistration
  | triangles : GeometryRegistration
  | quads : GeometryRegistration
deriving DecidableEq, Repr

/-- The per-mesh registration decision of ModelResource.cpp
`InitializeMeshes`, parameterized by the build-time gate constant
(`EnableDisplacement_` in source):
`hasDisplacement = material->flags & eDisplacementEnabled && gate`;
the non-displaced branch picks `RTC_GEOMETRY_TYPE_TRIANGLE` when
`indicesPerFace == 3` and `RTC_GEOMETRY_TYPE_QUAD` otherwise. -/
def meshGeometryRegistration (gate : Bool) (material : Material) (indicesPerFace : Nat) :
    GeometryRegistration :=
  let hasDisplacement := material.flags.displacementEnabled && gate
  if hasDisplacement then
    GeometryRegistration.subdivision TessellationRate true
  else if indicesPerFace = 3 then GeometryRegistration.triangles
  else GeometryRegistration.quads

/-- ModelResource.cpp `InitializeMeshes`, restricted to the registration
decisions: each mesh looks up its material by hash and is registered per
`meshGeometryRegistration`. -/
def InitializeMeshes (gate : Bool) (model : ModelResource) : List GeometryRegistration :=
  model.meshes.map (fun meshData =>
    meshGeometryRegistration gate (FindMeshMaterial model meshData.materialHash)
      meshData.indicesPerFace)

/-!
## Binary writer and baker (BuildCommon/BakeScene.cpp)

The `BinaryWriter` primitives live in IoLib/BinarySerializer.h, which is not
under src/; they are modelled from the spec: the writer has a main stream
written at the cursor, and a *promise a pointer* operation that records the
current main-stream cursor as a relocation site; pointee bytes are appended
later and the pointee's position is stored as a 64-bit offset into the
relocation site.  Bytes are modelled as `Nat`s.
-/

/-- Modelled from the spec: writer state.  `main` is the main stream,
`pointee` the appended pointee region (laid out after the main stream in the
finished blob), `promised` the FIFO of relocation sites still awaiting their
pointee, and `resolved` the relocation sites paired with the pointee-region
offset of their pointee. -/
structure BinaryWriter where
  main : List Nat
  pointee : List Nat
  promised : List Nat
  resolved : List (Nat × Nat)
deriving DecidableEq, Repr

/-- Modelled from the spec: `SerializerWritePointerOffsetX64` reserves a
64-bit offset slot in the main stream and records it as a relocation site. -/
def SerializerWritePointerOffsetX64 (w : BinaryWriter) : BinaryWriter :=
  { w with
      main := w.main ++ List.replicate 8 0,
      promised := w.promised ++ [w.main.length] }

/-- Modelled from the spec: `SerializerWritePointerData` appends bytes to the
pointee region; the first append after a pointer promise resolves that
promise to the current pointee cursor. -/
def SerializerWritePointerData (w : BinaryWriter) (data : List Nat) : BinaryWriter :=
  match w.promised with
  | [] => { w with pointee := w.pointee ++ data }
  | site :: rest =>
      { w with
          pointee := w.pointee ++ data,
          promised := rest,
          resolved := w.resolved ++ [(site, w.pointee.length)] }

/-- The zero-padding loop of `SerializeBufferAligned`: `n` single zero bytes
written through `SerializerWritePointerData`. -/
def padZeroBytes (w : BinaryWriter) : Nat → BinaryWriter
  | 0 => w
  | n + 1 => padZeroBytes (SerializerWritePointerData w [0]) n

/-- BakeScene.cpp: `alignedSize = (dataSize + pw2alignment - 1) & ~(pw2alignment - 1)`;
for a power-of-two alignment the mask equals rounding
`dataSize + pw2alignment - 1` down to a multiple of `pw2alignment`. -/
def alignedSizeOf (dataSize pw2alignment : Nat) : Nat :=
  (dataSize + pw2alignment - 1) - (dataSize + pw2alignment - 1) % pw2alignment

/-- BakeScene.cpp `SerializeBufferAligned`: promise a pointer, append the
buffer bytes, then append zero bytes up to `alignedSize`. -/
def SerializeBufferAligned (w : BinaryWriter) (data : List Nat) (pw2alignment : Nat) :
    BinaryWriter :=
  let w1 := SerializerWritePointerOffsetX64 w
  let w2 := SerializerWritePointerData w1 data
  padZeroBytes w2 (alignedSizeOf data.length pw2alignment - data.length)

/-- BakeScene.cpp: `SceneResource::kSceneDataAlignment` (the spec fixes the
buffer alignment at 16 bytes). -/
def kSceneDataAlignment : Nat := 16

/-- The buffers of `BuiltScene` that `SerializeGeometry` embeds:
one index buffer per mesh-index type, then face-index counts, positions,
normals, tangents, uvs and material indices. -/
structure BuiltSceneBuffers where
  indices : List (List Nat)
  faceIndexCounts : List Nat
  positions : List Nat
  normals : List Nat
  tangents : List Nat
  uvs : List Nat
  materialIndices : List Nat
deriving DecidableEq, Repr

/-- The buffer list embedded by `SerializeGeometry`, in source order. -/
def geometryBuffers (sceneData : BuiltSceneBuffers) : List (List Nat) :=
  sceneData.indices ++
    [sceneData.faceIndexCounts, sceneData.positions, sceneData.normals,
     sceneData.tangents, sceneData.uvs, sceneData.materialIndices]

/-- BakeScene.cpp `SerializeGeometry`: embed every geometry buffer through
`SerializeBufferAligned` with `kSceneDataAlignment`. -/
def SerializeGeometry (w : BinaryWriter) (sceneData : BuiltSceneBuffers) : BinaryWriter :=
  (geometryBuffers sceneData).foldl
    (fun acc data => SerializeBufferAligned acc data kSceneDataAlignment) w

/-- Modelled from the spec: at `SerializerEnd` the pointee region follows the
main stream, so a pointee at region offset `o` sits at blob-relative offset
`main.length + o`; these are the 64-bit offsets stored at the relocation
sites. -/
def serializerEndBlobOffsets (w : BinaryWriter) : List (Nat × Nat) :=
  w.resolved.map (fun site => (site.1, w.main.length + site.2))

/-!
## Build processor context (BuildCore/BuildContext.cpp)

`File::WriteWholeFile` and `AssetFileUtils::AssetFilePath` live in IoLib /
Assets, not under src/.  Paths (`<root>/<typeTag>_<version>/<assetHash>.bin`)
are modelled as a (type, version, name-hash) triple; strings are modelled by
numeric codes.
-/

/-- Modelled from the spec: the asset file path determined by type tag,
version and asset name hash. -/
structure AssetPath where
  typeCode : Nat
  version : Nat
  nameCode : Nat
deriving DecidableEq, Repr

/-- Modelled from the spec: `AssetFileUtils::AssetFilePath`. -/
def AssetFilePath (typeCode version nameCode : Nat) : AssetPath :=
  ⟨typeCode, version, nameCode⟩

/-- A file-system state: the files present, each with its full contents. -/
structure FileSys where
  files : List (AssetPath × List Nat)
deriving DecidableEq, Repr

/-- Contents at a path, when the file exists. -/
def FileSys.lookup (fs : FileSys) (p : AssetPath) : Option (List Nat) :=
  (fs.files.find? (fun f => f.1 = p)).map (fun f => f.2)

/-- Replace or create the file at a path with the given full contents. -/
def FileSys.store (fs : FileSys) (p : AssetPath) (data : List Nat) : FileSys :=
  ⟨(p, data) :: fs.files.filter (fun f => ¬ (f.1 = p))⟩

/-- Modelled from the spec: `File::WriteWholeFile` (not under src/) writes
the baked output atomically via temp-file + rename — `ioOk` is the outcome
of the surrounding I/O; on success the target holds the complete data, on
failure the file system is untouched (no partial file at the target). -/
def WriteWholeFile (fs : FileSys) (p : AssetPath) (data : List Nat) (ioOk : Bool) :
    Option FileSys :=
  if ioOk then some (fs.store p data) else none

/-- BuildContext.cpp: a `ProcessorOutput` record (`source`, `id`, `version`),
keyed by the same (type, name, version) data as the path. -/
structure ProcessorOutput where
  typeCode : Nat
  version : Nat
  nameCode : Nat
deriving DecidableEq, Repr

/-- The `outputs` list of `BuildProcessorContext` that `CreateOutput`
appends to. -/
structure BuildProcessorContext where
  outputs : List ProcessorOutput
deriving DecidableEq, Repr

/-- BuildContext.cpp `BuildProcessorContext::CreateOutput`: build the output
record, derive the asset file path, write the whole file (error propagates
via `ReturnError_`, leaving the context unchanged), then add the output
record.  Returns (success flag, context, file system). -/
def CreateOutput (ctx : BuildProcessorContext) (fs : FileSys) (ioOk : Bool)
    (typeCode version nameCode : Nat) (data : List Nat) :
    Bool × BuildProcessorContext × FileSys :=
  let output : ProcessorOutput := ⟨typeCode, version, nameCode⟩
  let filepath := AssetFilePath typeCode version nameCode
  match WriteWholeFile fs filepath data ioOk with
  | none => (false, ctx, fs)
  | some fs2 => (true, { outputs := ctx.outputs ++ [output] }, fs2)

/-!
## Concrete sample data for witnesses and counterexamples
-/

/-- All-zero surface differentials. -/
def zeroDiffs : SurfaceDifferentials :=
  ⟨flt3 0 0 0, flt3 0 0 0, flt3 0 0 0, flt3 0 0 0⟩

/-- A plain sample ray at bounce 0. -/
def sampleRay : Ray := MakeRay (flt3 0 0 0) (flt3 0 0 1) (flt3 1 1 1) 0 0

/-- A sample ray that has reached bounce 3. -/
def sampleRayB3 : Ray := MakeRay (flt3 0 0 0) (flt3 0 0 1) (flt3 1 1 1) 0 3

/-- A kernel context whose path-length bound is 3. -/
def sampleContextL3 : KernelContext :=
  { imageData := [flt3 0 0 0], rayStack := [], rayStackCount := 0,
    rayStackCapacity := 8, maxPathLength := 3 }

/-- A kernel context whose stack count has reached its capacity 4. -/
def fullContext : KernelContext :=
  { imageData := [], rayStack := List.replicate 4 sampleRay, rayStackCount := 4,
    rayStackCapacity := 4, maxPathLength := 10 }

/-- A `float3` with a non-finite first component. -/
def nonfiniteValue : Flt3 := ⟨Flt.nonfinite, Flt.fin 0, Flt.fin 0⟩

/-- A one-pixel kernel context holding a zeroed accumulator. -/
def onePixelContext : KernelContext :=
  { imageData := [flt3 0 0 0], rayStack := [], rayStackCount := 0,
    rayStackCapacity := 8, maxPathLength := 5 }

/-- A sample hit record at pixel 0. -/
def sampleHit : HitParameters := ⟨flt3 1 1 1, flt3 0 0 1, 0, 0⟩

/-- A concrete two-material model for the C9 witness. -/
def twoMaterialModel : ModelResource :=
  { materialHashes := [10, 20],
    materials :=
      [{ baseColor := flt3 1 0 0, shader := ShaderType.eDisneyThin,
         scalarIor := Flt.fin 1, flags := ⟨false, false, false, false⟩ },
       { baseColor := flt3 0 1 0, shader := ShaderType.eTransparentGgx,
         scalarIor := Flt.fin 2, flags := ⟨true, false, false, false⟩ }],
    meshes := [],
    defaultMaterial := CreateDefaultMaterial }

/-!
## Helper lemmas (shared)
-/

/-- Reading back the cell just written by `List.set`. -/
theorem getD_set_self_of_lt {α : Type} (l : List α) (p : Nat) (a d : α)
    (hp : p < l.length) : (l.set p a).getD p d = a := by
  rw [List.getD_eq_getElem _ d (by simpa using hp)]
  simp

/-- `List.set` leaves every other cell unchanged. -/
theorem getD_set_ne_cell {α : Type} (l : List α) (p q : Nat) (a d : α)
    (hq : q ≠ p) : (l.set p a).getD q d = l.getD q d := by
  by_cases h : q < l.length
  · rw [List.getD_eq_getElem _ d (by simpa using h), List.getD_eq_getElem _ d h]
    exact List.getElem_set_ne (fun e => hq e.symm) _
  · rw [List.getD_eq_default _ d (by simpa using Nat.le_of_not_lt h),
      List.getD_eq_default _ d (Nat.le_of_not_lt h)]

/-!
## Claims about InsertRay
-/

/-- C1: for every kernel context and every ray, `InsertRay` with
`ray.bounceCount` equal to the context's `maxPathLength` is a no-op — the
context (in particular the ray stack contents and `rayStackCount`) is
returned unchanged, so a ray whose bounce count equals the bound never
appears on the stack. -/
theorem insertRay_at_bound_noop (context : KernelContext) (ray : Ray)
    (h : ray.bounceCount = context.maxPathLength) :
    InsertRay context ray = context := by
  simp [InsertRay, h]

/-- Witness for C1 at a concrete context and ray with bounce count 3 equal
to the bound 3. -/
theorem insertRay_at_bound_noop_witness :
    InsertRay sampleContextL3 sampleRayB3 = sampleContextL3 :=
  insertRay_at_bound_noop sampleContextL3 sampleRayB3 (by decide)

/-- C2 (evaluation at the failing input): the capacity assertion
`rayStackCount + 1 != rayStackCapacity` inside `InsertRay` passes at a
context whose count 4 has already reached its capacity 4 — where the
claimed precondition `rayStackCount < rayStackCapacity` is false and the
push stores past the last slot, leaving count 5 — while the assertion
fires at count 3, capacity 4, where one slot is still free and the push
would be legal. -/
theorem insertRay_guard_off_by_one :
    insertRayAssertCondition fullContext = true ∧
    ¬ (fullContext.rayStackCount < fullContext.rayStackCapacity) ∧
    (InsertRay fullContext sampleRay).rayStackCount = 5 ∧
    insertRayAssertCondition { fullContext with rayStackCount := 3 } = false ∧
    3 < fullContext.rayStackCapacity := by
  refine ⟨by decide, by decide, ?_, by decide, by decide⟩
  rfl

/-!
## Claims about AccumulatePixelEnergy
-/

/-- C3 (counterexample): a concrete call to either `AccumulatePixelEnergy`
overload whose contribution `throughput * value` is non-finite does change
the pixel cell — the non-finite value is accumulated, not dropped. -/
theorem accumulate_nonfinite_counterexample :
    (sampleRay.throughput * nonfiniteValue).isFinite = false ∧
    (AccumulatePixelEnergyRay onePixelContext sampleRay nonfiniteValue).imageData ≠
      onePixelContext.imageData ∧
    (AccumulatePixelEnergyHit onePixelContext sampleHit nonfiniteValue).imageData ≠
      onePixelContext.imageData := by
  refine ⟨by decide, by decide, by decide⟩

/-- C3 (amended): both `AccumulatePixelEnergy` overloads add
`throughput * value` into the pixel cell unconditionally — finite or not —
change no other pixel cell, and mutate nothing else in the kernel context;
no sample is dropped and no dropped-sample count is kept. -/
theorem accumulatePixelEnergy_unconditional
    (context : KernelContext) (ray : Ray) (hit : HitParameters) (value : Flt3)
    (hr : ray.pixelIndex < context.imageData.length)
    (hh : hit.pixelIndex < context.imageData.length) :
    ((AccumulatePixelEnergyRay context ray value).imageData.getD ray.pixelIndex (flt3 0 0 0) =
      context.imageData.getD ray.pixelIndex (flt3 0 0 0) + ray.throughput * value) ∧
    (∀ q, q ≠ ray.pixelIndex →
      (AccumulatePixelEnergyRay context ray value).imageData.getD q (flt3 0 0 0) =
        context.imageData.getD q (flt3 0 0 0)) ∧
    (AccumulatePixelEnergyRay context ray value).rayStack = context.rayStack ∧
    (AccumulatePixelEnergyRay context ray value).rayStackCount = context.rayStackCount ∧
    ((AccumulatePixelEnergyHit context hit value).imageData.getD hit.pixelIndex (flt3 0 0 0) =
      context.imageData.getD hit.pixelIndex (flt3 0 0 0) + hit.throughput * value) ∧
    (∀ q, q ≠ hit.pixelIndex →
      (AccumulatePixelEnergyHit context hit value).imageData.getD q (flt3 0 0 0) =
        context.imageData.getD q (flt3 0 0 0)) ∧
    (AccumulatePixelEnergyHit context hit value).rayStack = context.rayStack ∧
    (AccumulatePixelEnergyHit context hit value).rayStackCount = context.rayStackCount := by
  refine ⟨?_, ?_, rfl, rfl, ?_, ?_, rfl, rfl⟩
  · exact getD_set_self_of_lt _ _ _ _ hr
  · exact fun q hq => getD_set_ne_cell _ _ _ _ _ hq
  · exact getD_set_self_of_lt _ _ _ _ hh
  · exact fun q hq => getD_set_ne_cell _ _ _ _ _ hq

/-- Witness for C3 (amended) at a one-pixel context, a ray and a hit both
aimed at pixel 0. -/
theorem accumulatePixelEnergy_unconditional_witness :
    ((AccumulatePixelEnergyRay onePixelContext sampleRay nonfiniteValue).imageData.getD
        sampleRay.pixelIndex (flt3 0 0 0) =
      onePixelContext.imageData.getD sampleRay.pixelIndex (flt3 0 0 0) +
        sampleRay.throughput * nonfiniteValue) ∧
    (∀ q, q ≠ sampleRay.pixelIndex →
      (AccumulatePixelEnergyRay onePixelContext sampleRay nonfiniteValue).imageData.getD q
          (flt3 0 0 0) =
        onePixelContext.imageData.getD q (flt3 0 0 0)) ∧
    (AccumulatePixelEnergyRay onePixelContext sampleRay nonfiniteValue).rayStack =
      onePixelContext.rayStack ∧
    (AccumulatePixelEnergyRay onePixelContext sampleRay nonfiniteValue).rayStackCount =
      onePixelContext.rayStackCount ∧
    ((AccumulatePixelEnergyHit onePixelContext sampleHit nonfiniteValue).imageData.getD
        sampleHit.pixelIndex (flt3 0 0 0) =
      onePixelContext.imageData.getD sampleHit.pixelIndex (flt3 0 0 0) +
        sampleHit.throughput * nonfiniteValue) ∧
    (∀ q, q ≠ sampleHit.pixelIndex →
      (AccumulatePixelEnergyHit onePixelContext sampleHit nonfiniteValue).imageData.getD q
          (flt3 0 0 0) =
        onePixelContext.imageData.getD q (flt3 0 0 0)) ∧
    (AccumulatePixelEnergyHit onePixelContext sampleHit nonfiniteValue).rayStack =
      onePixelContext.rayStack ∧
    (AccumulatePixelEnergyHit onePixelContext sampleHit nonfiniteValue).rayStackCount =
      onePixelContext.rayStackCount :=
  accumulatePixelEnergy_unconditional onePixelContext sampleRay sampleHit nonfiniteValue
    (by decide) (by decide)

/-- C7: for every kernel context, pixel index, throughput and value, the Ray
overload and the HitParameters overload of `AccumulatePixelEnergy` yield the
identical resulting context: both add `throughput * value` into the
accumulator cell at the pixel index and change nothing else. -/
theorem accumulatePixelEnergy_overloads_agree
    (context : KernelContext) (p : Nat) (t : Flt3) (ray : Ray) (hit : HitParameters)
    (value : Flt3) (h1 : ray.pixelIndex = p) (h2 : hit.pixelIndex = p)
    (h3 : ray.throughput = t) (h4 : hit.throughput = t)
    (hp : p < context.imageData.length) :
    AccumulatePixelEnergyRay context ray value = AccumulatePixelEnergyHit context hit value ∧
    (AccumulatePixelEnergyRay context ray value).imageData.getD p (flt3 0 0 0) =
      context.imageData.getD p (flt3 0 0 0) + t * value ∧
    (∀ q, q ≠ p → (AccumulatePixelEnergyRay context ray value).imageData.getD q (flt3 0 0 0) =
      context.imageData.getD q (flt3 0 0 0)) ∧
    (AccumulatePixelEnergyRay context ray value).rayStack = context.rayStack ∧
    (AccumulatePixelEnergyRay context ray value).rayStackCount = context.rayStackCount ∧
    (AccumulatePixelEnergyRay context ray value).rayStackCapacity = context.rayStackCapacity ∧
    (AccumulatePixelEnergyRay context ray value).maxPathLength = context.maxPathLength := by
  refine ⟨?_, ?_, ?_, rfl, rfl, rfl, rfl⟩
  · simp [AccumulatePixelEnergyRay, AccumulatePixelEnergyHit, h1, h2, h3, h4]
  · simp only [AccumulatePixelEnergyRay, h1, h3]
    exact getD_set_self_of_lt _ _ _ _ hp
  · intro q hq
    simp only [AccumulatePixelEnergyRay, h1]
    exact getD_set_ne_cell _ _ _ _ _ hq

/-- Witness for C7 at a one-pixel context with a ray and a hit both carrying
pixel index 0 and throughput (1,1,1). -/
theorem accumulatePixelEnergy_overloads_agree_witness :
    AccumulatePixelEnergyRay onePixelContext sampleRay (flt3 2 2 2) =
      AccumulatePixelEnergyHit onePixelContext sampleHit (flt3 2 2 2) ∧
    (AccumulatePixelEnergyRay onePixelContext sampleRay (flt3 2 2 2)).imageData.getD 0
        (flt3 0 0 0) =
      onePixelContext.imageData.getD 0 (flt3 0 0 0) + flt3 1 1 1 * flt3 2 2 2 ∧
    (∀ q, q ≠ 0 →
      (AccumulatePixelEnergyRay onePixelContext sampleRay (flt3 2 2 2)).imageData.getD q
          (flt3 0 0 0) =
        onePixelContext.imageData.getD q (flt3 0 0 0)) ∧
    (AccumulatePixelEnergyRay onePixelContext sampleRay (flt3 2 2 2)).rayStack =
      onePixelContext.rayStack ∧
    (AccumulatePixelEnergyRay onePixelContext sampleRay (flt3 2 2 2)).rayStackCount =
      onePixelContext.rayStackCount ∧
    (AccumulatePixelEnergyRay onePixelContext sampleRay (flt3 2 2 2)).rayStackCapacity =
      onePixelContext.rayStackCapacity ∧
    (AccumulatePixelEnergyRay onePixelContext sampleRay (flt3 2 2 2)).maxPathLength =
      onePixelContext.maxPathLength :=
  accumulatePixelEnergy_overloads_agree onePixelContext 0 (flt3 1 1 1) sampleRay sampleHit
    (flt3 2 2 2) (by decide) (by decide) (by decide) (by decide) (by decide)

/-!
## Claims about the bounce-ray builders
-/

/-- C10: on the differential branch and the plain branch alike, both bounce
ray builders return a ray whose pixel index equals the hit's, whose bounce
count is the hit's plus one, and whose throughput is the componentwise
product of the hit's throughput with the reflectance. -/
theorem bounceRay_invariants (surface : SurfaceParameters) (hit : HitParameters)
    (wi reflectance : Flt3) (relativeIor : Flt) :
    (CreateReflectionBounceRay surface hit wi reflectance).pixelIndex = hit.pixelIndex ∧
    (CreateReflectionBounceRay surface hit wi reflectance).bounceCount = hit.bounceCount + 1 ∧
    (CreateReflectionBounceRay surface hit wi reflectance).throughput =
      hit.throughput * reflectance ∧
    (CreateRefractionBounceRay surface hit wi reflectance relativeIor).pixelIndex =
      hit.pixelIndex ∧
    (CreateRefractionBounceRay surface hit wi reflectance relativeIor).bounceCount =
      hit.bounceCount + 1 ∧
    (CreateRefractionBounceRay surface hit wi reflectance relativeIor).throughput =
      hit.throughput * reflectance := by
  by_cases h : surface.materialFlags.preserveRayDifferentials &&
      (surface.rxDirection.x.neZero || surface.rxDirection.y.neZero) <;>
    simp [CreateReflectionBounceRay, CreateRefractionBounceRay, MakeRay,
      MakeReflectionRay, MakeRefractionRay, h]

/-- C6 (counterexample): a surface with `ePreserveRayDifferentials` set and
the nonzero differential direction (0,0,1) — nonzero only in `z` — still
produces plain bounce rays without differentials on both builders, because
the source tests only the `x` and `y` components. -/
theorem bounceRay_differentials_zComponent_counterexample :
    (SurfaceParameters.mk (flt3 0 0 0) (flt3 0 0 1) (flt3 0 0 1) (flt3 0 0 1) (flt3 0 0 0)
        ⟨false, false, true, false⟩ zeroDiffs).materialFlags.preserveRayDifferentials = true ∧
    (SurfaceParameters.mk (flt3 0 0 0) (flt3 0 0 1) (flt3 0 0 1) (flt3 0 0 1) (flt3 0 0 0)
        ⟨false, false, true, false⟩ zeroDiffs).rxDirection ≠ flt3 0 0 0 ∧
    (CreateReflectionBounceRay
        (SurfaceParameters.mk (flt3 0 0 0) (flt3 0 0 1) (flt3 0 0 1) (flt3 0 0 1) (flt3 0 0 0)
          ⟨false, false, true, false⟩ zeroDiffs)
        sampleHit (flt3 0 0 1) (flt3 1 1 1)).differentialData =
      RayDifferentialData.noDiff ∧
    (CreateRefractionBounceRay
        (SurfaceParameters.mk (flt3 0 0 0) (flt3 0 0 1) (flt3 0 0 1) (flt3 0 0 1) (flt3 0 0 0)
          ⟨false, false, true, false⟩ zeroDiffs)
        sampleHit (flt3 0 0 1) (flt3 1 1 1) (Flt.fin 1)).differentialData =
      RayDifferentialData.noDiff := by
  refine ⟨by decide, by decide, by decide, by decide⟩

/-- C6 (amended): the bounce ray carries analytically transformed
differentials (computed from the surface's differential data) exactly when
`ePreserveRayDifferentials` is set and `rxDirection` has a nonzero `x` or
`y` component; otherwise the ray is a plain ray without differentials. -/
theorem bounceRay_differential_branch (surface : SurfaceParameters) (hit : HitParameters)
    (wi reflectance : Flt3) (relativeIor : Flt) :
    (CreateReflectionBounceRay surface hit wi reflectance).differentialData =
      (if surface.materialFlags.preserveRayDifferentials &&
          (surface.rxDirection.x.neZero || surface.rxDirection.y.neZero) then
        RayDifferentialData.reflection surface.rxDirection surface.ryDirection
          surface.perturbedNormal hit.viewDirection wi surface.differentials
      else RayDifferentialData.noDiff) ∧
    (CreateRefractionBounceRay surface hit wi reflectance relativeIor).differentialData =
      (if surface.materialFlags.preserveRayDifferentials &&
          (surface.rxDirection.x.neZero || surface.rxDirection.y.neZero) then
        RayDifferentialData.refraction surface.rxDirection surface.ryDirection
          surface.perturbedNormal hit.viewDirection wi surface.differentials relativeIor
      else RayDifferentialData.noDiff) := by
  by_cases h : surface.materialFlags.preserveRayDifferentials &&
      (surface.rxDirection.x.neZero || surface.rxDirection.y.neZero) <;>
    simp [CreateReflectionBounceRay, CreateRefractionBounceRay, MakeRay,
      MakeReflectionRay, MakeRefractionRay, h]

/-!
## Claims about mesh registration and material lookup
-/

/-- C8: every mesh registered by `InitializeMeshes` is promoted to a
subdivision geometry (carrying the tessellation rate and a displacement
callback) exactly when its material has the `DisplacementEnabled` flag and
the build-time displacement gate is on; otherwise it is registered as
indexed triangles when `indicesPerFace = 3` and as indexed quads when
`indicesPerFace = 4`. -/
theorem initializeMeshes_registration (gate : Bool) (model : ModelResource)
    (i : Nat) (material : Material) (indicesPerFace : Nat) :
    ((InitializeMeshes gate model)[i]? = (model.meshes[i]?).map (fun meshData =>
      meshGeometryRegistration gate (FindMeshMaterial model meshData.materialHash)
        meshData.indicesPerFace)) ∧
    (meshGeometryRegistration gate material indicesPerFace =
        GeometryRegistration.subdivision TessellationRate true ↔
      material.flags.displacementEnabled = true ∧ gate = true) ∧
    (meshGeometryRegistration gate material 3 =
      if material.flags.displacementEnabled && gate then
        GeometryRegistration.subdivision TessellationRate true
      else GeometryRegistration.triangles) ∧
    (meshGeometryRegistration gate material 4 =
      if material.flags.displacementEnabled && gate then
        GeometryRegistration.subdivision TessellationRate true
      else GeometryRegistration.quads) := by
  refine ⟨by simp [InitializeMeshes], ?_, ?_, ?_⟩ <;>
    cases hd : material.flags.displacementEnabled <;> cases gate <;>
      simp [meshGeometryRegistration, hd] <;> split <;> simp

/-!
## Claims about CreateOutput (baked output files)
-/

/-- C5: `CreateOutput` either succeeds — the complete output file is at the
target asset path and the output record is appended — or fails, leaving the
file system (in particular the target path) exactly as it was and the
output list unchanged. -/
theorem createOutput_atomic (ctx : BuildProcessorContext) (fs : FileSys) (ioOk : Bool)
    (typeCode version nameCode : Nat) (data : List Nat) :
    (CreateOutput ctx fs ioOk typeCode version nameCode data =
      if ioOk then
        (true, ⟨ctx.outputs ++ [⟨typeCode, version, nameCode⟩]⟩,
          fs.store (AssetFilePath typeCode version nameCode) data)
      else (false, ctx, fs)) ∧
    ((CreateOutput ctx fs ioOk typeCode version nameCode data).2.2.lookup
        (AssetFilePath typeCode version nameCode) =
      if ioOk then some data else fs.lookup (AssetFilePath typeCode version nameCode)) := by
  cases ioOk <;>
    simp [CreateOutput, WriteWholeFile, FileSys.lookup, FileSys.store, List.find?]

/-!
## Claims about the aligned buffer embedding
-/

/-- The aligned size is a multiple of 16. -/
theorem alignedSizeOf_mod16 (d : Nat) : alignedSizeOf d 16 % 16 = 0 := by
  unfold alignedSizeOf; omega

/-- The aligned size dominates the data size. -/
theorem le_alignedSizeOf16 (d : Nat) : d ≤ alignedSizeOf d 16 := by
  unfold alignedSizeOf; omega

/-- The padding loop on a promise-free writer only appends zero bytes to the
pointee region. -/
theorem padZeroBytes_spec (n : Nat) (w : BinaryWriter) (hp : w.promised = []) :
    padZeroBytes w n = { w with pointee := w.pointee ++ List.replicate n 0 } := by
  induction n generalizing w with
  | zero => simp [padZeroBytes]
  | succ n ih =>
      have h1 : SerializerWritePointerData w [0] = { w with pointee := w.pointee ++ [0] } := by
        simp [SerializerWritePointerData, hp]
      have h2 : padZeroBytes w (n + 1) =
          padZeroBytes (SerializerWritePointerData w [0]) n := rfl
      rw [h2, h1, ih { w with pointee := w.pointee ++ [0] } hp]
      simp [List.replicate_succ]

/-- What one `SerializeBufferAligned` call does to a promise-free writer:
it reserves the 8-byte offset slot, records the pointee at the *current*
pointee cursor, appends the data and then the zero padding, consuming
`alignedSizeOf` bytes of pointee region in total. -/
theorem serializeBufferAligned_spec (w : BinaryWriter) (data : List Nat)
    (hp : w.promised = []) :
    SerializeBufferAligned w data 16 =
      { main := w.main ++ List.replicate 8 0,
        pointee := w.pointee ++ data ++
          List.replicate (alignedSizeOf data.length 16 - data.length) 0,
        promised := [],
        resolved := w.resolved ++ [(w.main.length, w.pointee.length)] } := by
  unfold SerializeBufferAligned SerializerWritePointerOffsetX64
  rw [hp]
  simp only [List.nil_append]
  rw [show SerializerWritePointerData
      { w with main := w.main ++ List.replicate 8 0, promised := [w.main.length] } data =
      { main := w.main ++ List.replicate 8 0, pointee := w.pointee ++ data,
        promised := [], resolved := w.resolved ++ [(w.main.length, w.pointee.length)] }
    from rfl]
  rw [padZeroBytes_spec _ _ rfl]

/-- C4 (counterexample): starting from the writer state produced by the
baker's own primitives — a pointer promise followed by a 4-byte unaligned
pointee, exactly the shape `SerializeMaterials` emits — a buffer embedded by
`SerializeBufferAligned` with 16-byte alignment begins at blob-relative
offset 20, which is not a multiple of 16: the zero padding is emitted after
the pointee, and nothing makes the pointee itself begin 16-aligned. -/
theorem serializeBufferAligned_pads_after_counterexample :
    serializerEndBlobOffsets
        (SerializeBufferAligned
          (SerializerWritePointerData (SerializerWritePointerOffsetX64 ⟨[], [], [], []⟩)
            [1, 2, 3, 4])
          [9, 9, 9] 16) = [(0, 16), (8, 20)] ∧
    (SerializeBufferAligned
        (SerializerWritePointerData (SerializerWritePointerOffsetX64 ⟨[], [], [], []⟩)
          [1, 2, 3, 4])
        [9, 9, 9] 16).pointee = [1, 2, 3, 4, 9, 9, 9] ++ List.replicate 13 0 ∧
    20 % 16 ≠ 0 := by
  refine ⟨by decide, by decide, by decide⟩

/-- Folding `SerializeBufferAligned` over a buffer list keeps the writer
promise-free, keeps the pointee cursor 16-aligned, and records only
16-aligned pointee offsets. -/
theorem serializeBuffers_aligned (buffers : List (List Nat)) :
    ∀ w : BinaryWriter, w.promised = [] → w.pointee.length % 16 = 0 →
      (∀ e ∈ w.resolved, e.2 % 16 = 0) →
      ((buffers.foldl (fun acc data => SerializeBufferAligned acc data 16) w).promised = [] ∧
       (buffers.foldl (fun acc data => SerializeBufferAligned acc data 16) w).pointee.length %
          16 = 0 ∧
       (∀ e ∈ (buffers.foldl (fun acc data => SerializeBufferAligned acc data 16) w).resolved,
          e.2 % 16 = 0)) := by
  induction buffers with
  | nil => intro w hp ha hr; exact ⟨hp, ha, hr⟩
  | cons b bs ih =>
      intro w hp ha hr
      simp only [List.foldl_cons]
      apply ih
      · rw [serializeBufferAligned_spec w b hp]
      · rw [serializeBufferAligned_spec w b hp]
        simp only [List.length_append, List.length_replicate]
        have h1 := alignedSizeOf_mod16 b.length
        have h2 := le_alignedSizeOf16 b.length
        omega
      · rw [serializeBufferAligned_spec w b hp]
        intro e he
        simp only [List.mem_append, List.mem_singleton] at he
        rcases he with he | he
        · exact hr e he
        · rw [he]; exact ha

/-- C4 (amended): `SerializeBufferAligned` pads with zero bytes after
emitting the pointee so that the pointee bytes consumed are the data size
rounded up to a multiple of 16; hence over `SerializeGeometry` every
embedded buffer begins at a 16-aligned pointee-region offset whenever the
writer starts promise-free with a 16-aligned pointee cursor, and — whenever
the pointee region itself starts at a 16-aligned offset relative to the blob
origin (a 16-aligned final main stream) — every embedded buffer pointer of
the baked geometry blob is 16-aligned relative to the blob origin. -/
theorem serializeGeometry_aligned (w : BinaryWriter) (sceneData : BuiltSceneBuffers)
    (hp : w.promised = []) (ha : w.pointee.length % 16 = 0)
    (hr : ∀ e ∈ w.resolved, e.2 % 16 = 0) :
    ((SerializeGeometry w sceneData).promised = []) ∧
    ((SerializeGeometry w sceneData).pointee.length % 16 = 0) ∧
    (∀ e ∈ (SerializeGeometry w sceneData).resolved, e.2 % 16 = 0) ∧
    ((SerializeGeometry w sceneData).main.length % 16 = 0 →
      ∀ e ∈ serializerEndBlobOffsets (SerializeGeometry w sceneData), e.2 % 16 = 0) := by
  have h := serializeBuffers_aligned (geometryBuffers sceneData) w hp ha hr
  refine ⟨h.1, h.2.1, h.2.2, ?_⟩
  intro hm e he
  simp only [serializerEndBlobOffsets, List.mem_map] at he
  obtain ⟨s, hs, rfl⟩ := he
  have := h.2.2 s hs
  simp only []
  omega

/-- Witness for C4 (amended) at a fresh writer and a one-byte-per-buffer
scene. -/
theorem serializeGeometry_aligned_witness :
    ((SerializeGeometry ⟨[], [], [], []⟩ ⟨[[1]], [2], [3], [4], [5], [6], [7]⟩).promised =
      []) ∧
    ((SerializeGeometry ⟨[], [], [], []⟩
        ⟨[[1]], [2], [3], [4], [5], [6], [7]⟩).pointee.length % 16 = 0) ∧
    (∀ e ∈ (SerializeGeometry ⟨[], [], [], []⟩
        ⟨[[1]], [2], [3], [4], [5], [6], [7]⟩).resolved, e.2 % 16 = 0) ∧
    ((SerializeGeometry ⟨[], [], [], []⟩
        ⟨[[1]], [2], [3], [4], [5], [6], [7]⟩).main.length % 16 = 0 →
      ∀ e ∈ serializerEndBlobOffsets
        (SerializeGeometry ⟨[], [], [], []⟩ ⟨[[1]], [2], [3], [4], [5], [6], [7]⟩),
        e.2 % 16 = 0) :=
  serializeGeometry_aligned ⟨[], [], [], []⟩ ⟨[[1]], [2], [3], [4], [5], [6], [7]⟩
    (by decide) (by decide) (by decide)

/-!
## Claims about material lookup (binary search)
-/

/-- Soundness of the binary search: a returned index lies in the searched
interval and carries the key. -/
theorem bsearchGo_sound (xs : List Nat) (key : Nat) :
    ∀ fuel lo hi i : Nat, hi - lo ≤ fuel → bsearchGo xs key lo hi = some i →
      xs.getD i 0 = key ∧ lo ≤ i ∧ i < hi := by
  intro fuel
  induction fuel with
  | zero =>
      intro lo hi i hf hres
      rw [bsearchGo, dif_neg (by omega)] at hres
      exact absurd hres (by simp)
  | succ n ih =>
      intro lo hi i hf hres
      rw [bsearchGo] at hres
      by_cases hlt : lo < hi
      · rw [dif_pos hlt] at hres
        by_cases he : xs.getD ((lo + hi) / 2) 0 = key
        · rw [if_pos he] at hres
          cases hres
          exact ⟨he, by omega, by omega⟩
        · rw [if_neg he] at hres
          by_cases hlt2 : xs.getD ((lo + hi) / 2) 0 < key
          · rw [if_pos hlt2] at hres
            have h3 := ih ((lo + hi) / 2 + 1) hi i (by omega) hres
            exact ⟨h3.1, by omega, h3.2.2⟩
          · rw [if_neg hlt2] at hres
            have h3 := ih lo ((lo + hi) / 2) i (by omega) hres
            exact ⟨h3.1, h3.2.1, by omega⟩
      · rw [dif_neg hlt] at hres
        exact absurd hres (by simp)

/-- Completeness of the binary search on a sorted array: if the key occurs
in the searched interval, the search succeeds. -/
theorem bsearchGo_complete (xs : List Nat) (key : Nat)
    (hsorted : ∀ i j, i < j → j < xs.length → xs.getD i 0 ≤ xs.getD j 0) :
    ∀ fuel lo hi : Nat, hi - lo ≤ fuel → hi ≤ xs.length →
      ∀ j, lo ≤ j → j < hi → xs.getD j 0 = key →
        ∃ i, bsearchGo xs key lo hi = some i := by
  intro fuel
  induction fuel with
  | zero =>
      intro lo hi hf hhi j h1 h2 _
      omega
  | succ n ih =>
      intro lo hi hf hhi j h1 h2 hkey
      have hlt : lo < hi := by omega
      by_cases he : xs.getD ((lo + hi) / 2) 0 = key
      · exact ⟨(lo + hi) / 2, by rw [bsearchGo, dif_pos hlt, if_pos he]⟩
      · by_cases hlt2 : xs.getD ((lo + hi) / 2) 0 < key
        · have hj : (lo + hi) / 2 + 1 ≤ j := by
            by_contra hc
            push_neg at hc
            rcases Nat.lt_or_ge j ((lo + hi) / 2) with hjm | hjm
            · have h4 := hsorted j ((lo + hi) / 2) hjm (by omega)
              omega
            · have h5 : j = (lo + hi) / 2 := by omega
              rw [h5] at hkey
              exact he hkey
          obtain ⟨i, hfound⟩ := ih ((lo + hi) / 2 + 1) hi (by omega) hhi j hj h2 hkey
          exact ⟨i, by rw [bsearchGo, dif_pos hlt, if_neg he, if_pos hlt2]; exact hfound⟩
        · have hj : j < (lo + hi) / 2 := by
            by_contra hc
            push_neg at hc
            rcases Nat.lt_or_ge ((lo + hi) / 2) j with hmj | hmj
            · have h4 := hsorted ((lo + hi) / 2) j hmj (by omega)
              omega
            · have h5 : j = (lo + hi) / 2 := by omega
              rw [h5] at hkey
              exact he hkey
          obtain ⟨i, hfound⟩ := ih lo ((lo + hi) / 2) (by omega) (by omega) j h1 hj hkey
          exact ⟨i, by rw [bsearchGo, dif_pos hlt, if_neg he, if_neg hlt2]; exact hfound⟩

/-- C9: on a model whose material hashes are sorted and parallel to the
material array (with the default material installed by
`InitializeModelResource`), `FindMeshMaterial` returns, via binary search,
the material whose hash matches; when there is no match — in particular when
the material array is empty — it returns the default material, whose base
color is gray (0.6, 0.6, 0.6), whose shader is Disney solid and whose ior is
1.5. -/
theorem findMeshMaterial_spec (model : ModelResource) (materialHash : Nat)
    (hlen : model.materialHashes.length = model.materials.length)
    (hsorted : List.Sorted (· ≤ ·) model.materialHashes)
    (hdefault : model.defaultMaterial = CreateDefaultMaterial) :
    ((materialHash ∈ model.materialHashes) →
      ∃ i, i < model.materials.length ∧
        model.materialHashes.getD i 0 = materialHash ∧
        FindMeshMaterial model materialHash = model.materials.getD i CreateDefaultMaterial) ∧
    ((materialHash ∉ model.materialHashes) →
      FindMeshMaterial model materialHash = CreateDefaultMaterial) ∧
    CreateDefaultMaterial.baseColor = flt3 (6/10) (6/10) (6/10) ∧
    CreateDefaultMaterial.shader = ShaderType.eDisneySolid ∧
    CreateDefaultMaterial.scalarIor = Flt.fin (3/2) := by
  have htake : model.materialHashes.take model.materials.length = model.materialHashes := by
    rw [← hlen]
    exact List.take_length _
  have hg : ∀ i j, i < j → j < model.materialHashes.length →
      model.materialHashes.getD i 0 ≤ model.materialHashes.getD j 0 := by
    intro i j hij hj
    rw [List.getD_eq_get _ _ (by omega), List.getD_eq_get _ _ hj]
    exact hsorted.rel_get_of_lt (Fin.mk_lt_mk.mpr hij)
  refine ⟨?_, ?_, rfl, rfl, rfl⟩
  · intro hmem
    obtain ⟨n, hn⟩ := List.mem_iff_get.mp hmem
    have hne : model.materials.length ≠ 0 := by
      intro h0
      have : model.materialHashes.length = 0 := by omega
      exact absurd (List.length_pos.mpr (List.ne_nil_of_mem hmem)) (by omega)
    have hkey : model.materialHashes.getD n.1 0 = materialHash := by
      rw [List.getD_eq_get _ _ n.2]
      exact hn
    obtain ⟨i, hbs⟩ := bsearchGo_complete model.materialHashes materialHash hg
      model.materialHashes.length 0 model.materialHashes.length (by omega) (by omega)
      n.1 (by omega) n.2 hkey
    have hsound := bsearchGo_sound model.materialHashes materialHash
      model.materialHashes.length 0 model.materialHashes.length i (by omega) hbs
    refine ⟨i, by omega, hsound.1, ?_⟩
    unfold FindMeshMaterial
    rw [if_neg hne, htake]
    unfold BinarySearch
    rw [hbs]
  · intro hnot
    by_cases hc : model.materials.length = 0
    · unfold FindMeshMaterial
      rw [if_pos hc, hdefault]
    · unfold FindMeshMaterial
      rw [if_neg hc, htake]
      unfold BinarySearch
      cases hbs : bsearchGo model.materialHashes materialHash 0 model.materialHashes.length with
      | none => exact hdefault
      | some i =>
          have hsound := bsearchGo_sound model.materialHashes materialHash
            model.materialHashes.length 0 model.materialHashes.length i (by omega) hbs
          have hmem : materialHash ∈ model.materialHashes := by
            rw [← hsound.1, List.getD_eq_get _ _ hsound.2.2]
            exact List.get_mem _ _ _
          exact absurd hmem hnot

/-- Witness for C9 at the concrete two-material model and hash 20. -/
theorem findMeshMaterial_spec_witness :
    ((20 ∈ twoMaterialModel.materialHashes) →
      ∃ i, i < twoMaterialModel.materials.length ∧
        twoMaterialModel.materialHashes.getD i 0 = 20 ∧
        FindMeshMaterial twoMaterialModel 20 =
          twoMaterialModel.materials.getD i CreateDefaultMaterial) ∧
    ((20 ∉ twoMaterialModel.materialHashes) →
      FindMeshMaterial twoMaterialModel 20 = CreateDefaultMaterial) ∧
    CreateDefaultMaterial.baseColor = flt3 (6/10) (6/10) (6/10) ∧
    CreateDefaultMaterial.shader = ShaderType.eDisneySolid ∧
    CreateDefaultMaterial.scalarIor = Flt.fin (3/2) :=
  findMeshMaterial_spec twoMaterialModel 20 (by decide) (by decide) rfl

end ShootyEngine
